import Mathlib

/-!
Shallow embedding of the `emaillistchecker` Python client
(`src/emaillistchecker/client.py`, `src/emaillistchecker/exceptions.py`).

The client is a request/response mapping layer: it composes a URL, issues an
HTTP call, classifies the response status into a typed error taxonomy and
unwraps a `data` envelope field.  We model JSON values, HTTP responses and
the exception taxonomy explicitly, and translate each routine of the source
into a Lean function.  Python-level failures that escape the client's own
handlers (`AttributeError` from calling `.get` on a non-dict decoded body,
`ValueError` from `int(...)` on a non-numeric `Retry-After` header, and
`requests` exceptions that are not caught) are modelled by a dedicated
`pyError` outcome so that the embedding stays faithful to the source on
every input.
-/

/-- JSON values, as produced by `response.json()`. -/
inductive Json where
  | null : Json
  | bool : Bool → Json
  | num : Int → Json
  | str : String → Json
  | arr : List Json → Json
  | obj : List (String × Json) → Json

/-- First-match lookup in a key/value list (Python dict keys are unique, so
first-match agrees with dict lookup). -/
def lookupKvs (kvs : List (String × Json)) (k : String) : Option Json :=
  match kvs with
  | [] => none
  | (k', v) :: rest => if k' = k then some v else lookupKvs rest k

/-- Field lookup on a JSON value: `some v` when the value is an object with
the field, `none` otherwise. -/
def lookupField (j : Json) (k : String) : Option Json :=
  match j with
  | .obj kvs => lookupKvs kvs k
  | _ => none

/-- Python `d.get(k, dflt)`.  On a dict it returns the field or the default;
on any non-dict value Python raises `AttributeError`, which we surface as an
`Except.error` carrying the Python exception name. -/
def pyGet (j : Json) (k : String) (dflt : Json) : Except String Json :=
  match j with
  | .obj kvs => .ok ((lookupKvs kvs k).getD dflt)
  | _ => .error "AttributeError"

/-- Whether a JSON value is an object (a Python dict). -/
def isObjB (j : Json) : Bool :=
  match j with
  | .obj _ => true
  | _ => false

/-- A decoded body (absent, or present and a JSON object) fits the response
envelope shape `\x7b data?, error?, message? \x7d`. -/
def envelopeBody (b : Option Json) : Bool :=
  match b with
  | none => true
  | some j => isObjB j

/-! ## Exception taxonomy (`src/emaillistchecker/exceptions.py`) -/

/-- The exception classes declared by the SDK: the base
`EmailListCheckerException` and its five subclasses. -/
inductive ExcClass where
  | base : ExcClass
  | authentication : ExcClass
  | insufficientCredits : ExcClass
  | rateLimit : ExcClass
  | validation : ExcClass
  | apiError : ExcClass
deriving DecidableEq

/-- The declared parent of each exception class within the taxonomy:
each subclass extends `EmailListCheckerException`; the base class itself
extends the built-in `Exception`, which lies outside the taxonomy. -/
def superclass (c : ExcClass) : Option ExcClass :=
  match c with
  | .base => none
  | .authentication => some .base
  | .insufficientCredits => some .base
  | .rateLimit => some .base
  | .validation => some .base
  | .apiError => some .base

/-- An `except EmailListCheckerException` clause catches an instance of a
class iff the class is the base itself or (directly) subclasses it. -/
def catchableByBase (c : ExcClass) : Bool :=
  c = ExcClass.base ∨ superclass c = some ExcClass.base

/-- An exception instance: `EmailListCheckerException.__init__` stores
`message`, `status_code` and `response` as attributes.  Messages are JSON
values because Python would happily store a non-string field value. -/
structure ELCError where
  cls : ExcClass
  message : Json
  status_code : Option Nat
  response : Option Json

/-- Constructing an exception with the `__init__` defaults
(`status_code=None, response=None`). -/
def mkExcDefault (c : ExcClass) (m : Json) : ELCError :=
  ⟨c, m, none, none⟩

/-- Outcome of a failing call: a raised SDK exception, or an uncaught
Python-level error (identified by the Python exception class name). -/
inductive Raised where
  | exc : ELCError → Raised
  | pyError : String → Raised

/-! ## HTTP responses and the shared request routine
(`EmailListChecker._request`, client.py lines 44-99) -/

/-- An HTTP response as the client observes it: a status code, headers, and
the decoded body (`none` models empty `response.content`; a present body is
the JSON value `response.json()` yields). -/
structure HttpResponse where
  status : Nat
  headers : List (String × String)
  body : Option Json

/-- ASCII lowercase of one character. -/
def lowerChar (c : Char) : Char :=
  if 65 ≤ c.toNat ∧ c.toNat ≤ 90 then Char.ofNat (c.toNat + 32) else c

/-- ASCII lowercase of a string (header names are ASCII). -/
def lowerStr (s : String) : String :=
  String.mk (s.data.map lowerChar)

/-- `response.headers.get(k)`: requests header dicts are case-insensitive. -/
def headersGet (hs : List (String × String)) (k : String) : Option String :=
  match hs with
  | [] => none
  | (k', v) :: rest => if lowerStr k' = lowerStr k then some v else headersGet rest k

/-- The numeric value of a decimal digit character, if it is one. -/
def digitVal (c : Char) : Option Nat :=
  if 48 ≤ c.toNat ∧ c.toNat ≤ 57 then some (c.toNat - 48) else none

/-- Accumulate the decimal value of a digit string; `none` on a non-digit. -/
def parseDigits : List Char → Nat → Option Nat
  | [], acc => some acc
  | c :: cs, acc =>
    match digitVal c with
    | some d => parseDigits cs (acc * 10 + d)
    | none => none

/-- Strip leading and trailing whitespace. -/
def stripWs (l : List Char) : List Char :=
  ((l.dropWhile (fun c => c.isWhitespace)).reverse.dropWhile
    (fun c => c.isWhitespace)).reverse

/-- Python `int(s)` on a string: surrounding whitespace allowed, optional
minus sign, then at least one decimal digit; `none` models `ValueError`. -/
def pyInt (s : String) : Option Int :=
  match stripWs s.data with
  | [] => none
  | '-' :: cs =>
    match cs with
    | [] => none
    | _ => (parseDigits cs 0).map (fun n => -(n : Int))
  | cs => (parseDigits cs 0).map (fun n => (n : Int))

/-- `int(response.headers.get('Retry-After', 60))`: the absent-header default
is the integer 60; a present header is parsed with Python `int`, which raises
`ValueError` on non-numeric text. -/
def retryAfterOf (hs : List (String × String)) : Except String Int :=
  match headersGet hs "Retry-After" with
  | none => .ok 60
  | some s =>
    match pyInt s with
    | some n => .ok n
    | none => .error "ValueError"

/-- `data = response.json() if response.content else {}` (client.py line 66). -/
def decodedBody (r : HttpResponse) : Json :=
  r.body.getD (Json.obj [])

/-- Status classification of `_request` (client.py lines 56-94), translated
branch for branch: 429 first (before body decoding), then 401, 402, 422,
then any other non-ok status, else success returning the decoded body.
`response.ok` is `status_code < 400` per the requests documentation. -/
def classify (r : HttpResponse) : Except Raised Json :=
  if r.status = 429 then
    match retryAfterOf r.headers with
    | .error n => .error (.pyError n)
    | .ok ra =>
      .error (.exc ⟨.rateLimit,
        .str ("Rate limit exceeded. Retry after " ++ toString ra ++ " seconds"),
        some 429, r.body⟩)
  else
    let d := decodedBody r
    if r.status = 401 then
      match pyGet d "error" (.str "Invalid API key") with
      | .error n => .error (.pyError n)
      | .ok m => .error (.exc ⟨.authentication, m, some 401, some d⟩)
    else if r.status = 402 then
      match pyGet d "error" (.str "Insufficient credits") with
      | .error n => .error (.pyError n)
      | .ok m => .error (.exc ⟨.insufficientCredits, m, some 402, some d⟩)
    else if r.status = 422 then
      match pyGet d "message" (.str "Validation error") with
      | .error n => .error (.pyError n)
      | .ok m => .error (.exc ⟨.validation, m, some 422, some d⟩)
    else if 400 ≤ r.status then
      match pyGet d "error" (.str ("API error: " ++ toString r.status)) with
      | .error n => .error (.pyError n)
      | .ok m => .error (.exc ⟨.apiError, m, some r.status, some d⟩)
    else
      .ok d

/-- What the transport layer did for one call: delivered a response, raised
`requests.exceptions.Timeout`, or raised another `requests` exception whose
string form is `msg`. -/
inductive TransportResult where
  | success : HttpResponse → TransportResult
  | timeout : TransportResult
  | requestFailure : String → TransportResult

/-- The full `_request` routine for a client configured with timeout
`cfgTimeout`: classify a delivered response; re-raise transport failures as
the base `EmailListCheckerException` (client.py lines 96-99). -/
def request (cfgTimeout : Nat) (t : TransportResult) : Except Raised Json :=
  match t with
  | .success r => classify r
  | .timeout =>
    .error (.exc (mkExcDefault .base
      (.str ("Request timeout after " ++ toString cfgTimeout ++ " seconds"))))
  | .requestFailure m =>
    .error (.exc (mkExcDefault .base (.str ("Request failed: " ++ m))))

/-! ## URL composition (`__init__` line 35, `_request` line 46) -/

/-- Python `s.rstrip('/')`: drop every trailing `/`. -/
def rstripSlash (s : String) : String :=
  String.mk ((s.data.reverse.dropWhile (fun c => c == '/')).reverse)

/-- Python `s.lstrip('/')`: drop every leading `/`. -/
def lstripSlash (s : String) : String :=
  String.mk (s.data.dropWhile (fun c => c == '/'))

/-- The outgoing URL: the constructor stores `base_url.rstrip('/')` and
`_request` composes `f"\x7bself.base_url\x7d/\x7bendpoint.lstrip('/')\x7d"`. -/
def clientUrl (base_url endpoint : String) : String :=
  rstripSlash base_url ++ "/" ++ lstripSlash endpoint

/-- Whether a string ends with a `/` character. -/
def endsWithSlash (s : String) : Bool :=
  match s.data.reverse with
  | [] => false
  | c :: _ => c == '/'

/-- Whether a string starts with a `/` character. -/
def startsWithSlash (s : String) : Bool :=
  match s.data with
  | [] => false
  | c :: _ => c == '/'

/-! ## Request payloads (`verify` lines 128-130, `verify_batch` lines 157-164) -/

/-- The JSON payload `verify` builds: `\x7b'email': ..., 'smtp_check': ...\x7d`,
with `timeout` added only when the Python value is truthy (`if timeout:`),
so `None` and `0` both omit it. -/
def verifyPayload (email : String) (timeout : Option Int) (smtp_check : Bool) :
    List (String × Json) :=
  let params := [("email", Json.str email), ("smtp_check", Json.bool smtp_check)]
  match timeout with
  | none => params
  | some t => if t = 0 then params else params ++ [("timeout", Json.num t)]

/-- The JSON payload `verify_batch` builds: `emails` and `auto_start` always,
`name` and `callback_url` only when truthy (`if name:` / `if callback_url:`),
so `None` and the empty string omit them. -/
def verifyBatchPayload (emails : List String) (name callback_url : Option String)
    (auto_start : Bool) : List (String × Json) :=
  let d := [("emails", Json.arr (emails.map Json.str)),
            ("auto_start", Json.bool auto_start)]
  let d1 :=
    match name with
    | none => d
    | some s => if s = "" then d else d ++ [("name", Json.str s)]
  match callback_url with
  | none => d1
  | some s => if s = "" then d1 else d1 ++ [("callback_url", Json.str s)]

/-- Whether a payload dict contains a key. -/
def hasKey (kvs : List (String × Json)) (k : String) : Bool :=
  kvs.any (fun p => p.1 == k)

/-! ## Per-operation post-processing of a success body -/

/-- `get_batch_results` after `_request` (client.py lines 304-307): unwrap
`data` only when `format == 'json'`, otherwise return the decoded body as is. -/
def getBatchResultsPost (format : String) (r : Json) : Except String Json :=
  if format = "json" then pyGet r "data" r else .ok r

/-- The public operations of the client. -/
inductive Op where
  | verify : Op
  | verifyBatch : Op
  | verifyBatchFile : Op
  | getBatchStatus : Op
  | getBatchResults : String → Op
  | findEmail : Op
  | findByDomain : Op
  | findByCompany : Op
  | getCredits : Op
  | getUsage : Op
  | getLists : Op
  | deleteList : Op
deriving DecidableEq

/-- What each public operation does to the value `_request` returned:
every method executes `return response.get('data', response)` except
`get_batch_results` (conditional on the format) and `delete_list`
(`return response`, client.py line 446). -/
def opPost (op : Op) (r : Json) : Except String Json :=
  match op with
  | .verify => pyGet r "data" r
  | .verifyBatch => pyGet r "data" r
  | .verifyBatchFile => pyGet r "data" r
  | .getBatchStatus => pyGet r "data" r
  | .getBatchResults format => getBatchResultsPost format r
  | .findEmail => pyGet r "data" r
  | .findByDomain => pyGet r "data" r
  | .findByCompany => pyGet r "data" r
  | .getCredits => pyGet r "data" r
  | .getUsage => pyGet r "data" r
  | .getLists => pyGet r "data" r
  | .deleteList => .ok r

/-- Which operations unwrap the `data` field of a success body.  Stated from
the code: everything except `delete_list` and `get_batch_results` with a
non-`json` format. -/
def unwrapsData (op : Op) : Bool :=
  match op with
  | .deleteList => false
  | .getBatchResults format => format == "json"
  | _ => true

/-! ## File upload (`verify_batch_file`, client.py lines 169-256) -/

/-- The `file` argument: a filesystem path (string) or an already-open
stream, identified by its handle. -/
inductive FileArg where
  | path : String → FileArg
  | stream : Nat → FileArg

/-- What `requests.post` did inside `verify_batch_file`: delivered a
response, or raised an exception (there is no `except` clause in this
method, so any raised `requests` exception propagates unchanged). -/
inductive UploadOutcome where
  | success : HttpResponse → UploadOutcome
  | raise : String → UploadOutcome

/-- Response handling of `verify_batch_file` (client.py lines 224-251),
translated branch for branch.  Unlike `_request`, there is no `429` branch:
a 429 response falls through to the `not response.ok` arm and becomes an
`APIError`.  On success the method itself unwraps
`response_data.get('data', response_data)`. -/
def classifyUpload (r : HttpResponse) : Except Raised Json :=
  let d := decodedBody r
  if r.status = 401 then
    match pyGet d "error" (.str "Invalid API key") with
    | .error n => .error (.pyError n)
    | .ok m => .error (.exc ⟨.authentication, m, some 401, some d⟩)
  else if r.status = 402 then
    match pyGet d "error" (.str "Insufficient credits") with
    | .error n => .error (.pyError n)
    | .ok m => .error (.exc ⟨.insufficientCredits, m, some 402, some d⟩)
  else if r.status = 422 then
    match pyGet d "message" (.str "Validation error") with
    | .error n => .error (.pyError n)
    | .ok m => .error (.exc ⟨.validation, m, some 422, some d⟩)
  else if 400 ≤ r.status then
    match pyGet d "error" (.str ("API error: " ++ toString r.status)) with
    | .error n => .error (.pyError n)
    | .ok m => .error (.exc ⟨.apiError, m, some r.status, some d⟩)
  else
    match pyGet d "data" d with
    | .error n => .error (.pyError n)
    | .ok v => .ok v

/-- The `try` body of `verify_batch_file`: a raised transport exception is
not caught (no `except` clause), so it escapes as a Python-level error. -/
def uploadTryBody (t : UploadOutcome) : Except Raised Json :=
  match t with
  | .success r => classifyUpload r
  | .raise n => .error (.pyError n)

/-- A handle not yet open, for modelling `open(file, 'rb')`. -/
def freshHandle (fs : List Nat) : Nat :=
  fs.foldr max 0 + 1

/-- `verify_batch_file` with respect to the set `fs` of open file handles:
a path argument is opened before the `try` and the `finally` clause closes
it (`isinstance(file, str) and 'file' in files`); a stream argument is used
as given and never closed.  Returns the call's outcome and the final set of
open handles. -/
def runVerifyBatchFile (file : FileArg) (t : UploadOutcome) (fs : List Nat) :
    Except Raised Json × List Nat :=
  match file with
  | .path _ =>
    let h := freshHandle fs
    let fs1 := h :: fs
    let r := uploadTryBody t
    (r, fs1.erase h)
  | .stream _ => (uploadTryBody t, fs)

/-- Whether `int(response.headers.get('Retry-After', 60))` evaluates without
raising (it always does when the header is absent or numeric). -/
def retryAfterOk (hs : List (String × String)) : Bool :=
  match retryAfterOf hs with
  | .ok _ => true
  | .error _ => false

/-! ## Helper lemmas -/

theorem dropWhile_head_not (p : Char → Bool) :
    ∀ l : List Char,
      (match l.dropWhile p with | [] => true | c :: _ => !(p c)) = true := by
  intro l
  induction l with
  | nil => rfl
  | cons a t ih =>
    by_cases h : p a
    · simpa [List.dropWhile, h] using ih
    · simp [List.dropWhile, h]

theorem decodedBody_obj {r : HttpResponse} (h : envelopeBody r.body = true) :
    ∃ kvs, decodedBody r = Json.obj kvs := by
  unfold decodedBody
  cases hb : r.body with
  | none => exact ⟨[], rfl⟩
  | some j =>
    cases j with
    | obj kvs => exact ⟨kvs, rfl⟩
    | null => rw [hb] at h; simp [envelopeBody, isObjB] at h
    | bool b => rw [hb] at h; simp [envelopeBody, isObjB] at h
    | num n => rw [hb] at h; simp [envelopeBody, isObjB] at h
    | str s => rw [hb] at h; simp [envelopeBody, isObjB] at h
    | arr xs => rw [hb] at h; simp [envelopeBody, isObjB] at h

theorem le_foldr_max (x : Nat) :
    ∀ fs : List Nat, x ∈ fs → x ≤ fs.foldr max 0 := by
  intro fs
  induction fs with
  | nil => intro h; cases h
  | cons a t ih =>
    intro h
    rcases List.mem_cons.mp h with rfl | h
    · exact Nat.le_max_left x (t.foldr max 0)
    · exact le_trans (ih h) (Nat.le_max_right a (t.foldr max 0))

theorem freshHandle_not_mem (fs : List Nat) : freshHandle fs ∉ fs := by
  intro hmem
  have h := le_foldr_max (freshHandle fs) fs hmem
  unfold freshHandle at h
  omega

theorem retryAfterOk_exists {hs : List (String × String)}
    (h : retryAfterOk hs = true) : ∃ ra, retryAfterOf hs = .ok ra := by
  unfold retryAfterOk at h
  cases hr : retryAfterOf hs with
  | ok ra => exact ⟨ra, rfl⟩
  | error n => rw [hr] at h; simp at h

/-! ## Claims -/

/-- Claim C1: in `_request`, status 429 produces a `RateLimitError`, 401 an
`AuthenticationError`, 402 an `InsufficientCreditsError`, 422 a
`ValidationError`, and any other status ≥ 400 an `APIError` whose message is
the body's `error` field when present (fallback `API error: \x7bstatus\x7d`);
checks are applied in this order with first match winning, and a success
status (< 400) raises no error and yields the decoded body. -/
theorem c1_status_classification (r : HttpResponse)
    (henv : envelopeBody r.body = true) (hra : retryAfterOk r.headers = true) :
    (r.status = 429 → ∃ e, classify r = .error (.exc e) ∧ e.cls = .rateLimit) ∧
    (r.status = 401 →
      ∃ e, classify r = .error (.exc e) ∧ e.cls = .authentication) ∧
    (r.status = 402 →
      ∃ e, classify r = .error (.exc e) ∧ e.cls = .insufficientCredits) ∧
    (r.status = 422 →
      ∃ e, classify r = .error (.exc e) ∧ e.cls = .validation) ∧
    (400 ≤ r.status → r.status ≠ 401 → r.status ≠ 402 → r.status ≠ 422 →
      r.status ≠ 429 →
      classify r = .error (.exc ⟨.apiError,
        (lookupField (decodedBody r) "error").getD
          (.str ("API error: " ++ toString r.status)),
        some r.status, some (decodedBody r)⟩)) ∧
    (r.status < 400 → classify r = .ok (decodedBody r)) := by
  obtain ⟨kvs, hkvs⟩ := decodedBody_obj henv
  obtain ⟨ra, hrate⟩ := retryAfterOk_exists hra
  refine ⟨?_, ?_, ?_, ?_, ?_, ?_⟩
  · intro h
    simp only [classify, h, if_pos, hrate]
    exact ⟨_, rfl, rfl⟩
  · intro h
    simp only [classify, h, decodedBody] at *
    simp only [hkvs, pyGet]
    exact ⟨_, rfl, rfl⟩
  · intro h
    simp only [classify, h, decodedBody] at *
    simp only [hkvs, pyGet]
    exact ⟨_, rfl, rfl⟩
  · intro h
    simp only [classify, h, decodedBody] at *
    simp only [hkvs, pyGet]
    exact ⟨_, rfl, rfl⟩
  · intro h h1 h2 h3 h4
    simp only [classify, h, h1, h2, h3, h4, decodedBody] at *
    simp [hkvs, pyGet, lookupField]
  · intro h
    have h1 : r.status ≠ 429 := by omega
    have h2 : r.status ≠ 401 := by omega
    have h3 : r.status ≠ 402 := by omega
    have h4 : r.status ≠ 422 := by omega
    have h5 : ¬ (400 ≤ r.status) := by omega
    simp [classify, h1, h2, h3, h4, h5, decodedBody]

/-- Witness for C1: a concrete 500 response with body
`\x7b"error": "boom"\x7d` yields an `APIError` carrying the body's message. -/
theorem c1_status_classification_witness :
    classify ⟨500, [], some (Json.obj [("error", Json.str "boom")])⟩ =
      .error (.exc ⟨.apiError, .str "boom", some 500,
        some (Json.obj [("error", Json.str "boom")])⟩) := by
  have h := (c1_status_classification
    ⟨500, [], some (Json.obj [("error", Json.str "boom")])⟩ rfl rfl).2.2.2.2.1
    (by decide) (by decide) (by decide) (by decide) (by decide)
  simpa [decodedBody, lookupField, lookupKvs] using h

/-- Claim C2 (amended): every public operation unwraps the `data` field of an
object success body when present (falling back to the whole body) — except
`delete_list`, which returns the full envelope, and `get_batch_results` with
a non-`json` format, which also returns the body without unwrapping. -/
theorem c2_envelope_unwrapping (op : Op) (j : Json) (hobj : isObjB j = true) :
    (unwrapsData op = true → opPost op j = .ok ((lookupField j "data").getD j)) ∧
    (unwrapsData op = false → opPost op j = .ok j) := by
  obtain ⟨kvs, rfl⟩ : ∃ kvs, j = Json.obj kvs := by
    cases j <;> first
      | exact ⟨_, rfl⟩
      | simp [isObjB] at hobj
  cases op with
  | getBatchResults format =>
    by_cases hf : format = "json"
    · simp [opPost, getBatchResultsPost, unwrapsData, hf, pyGet, lookupField]
    · simp [opPost, getBatchResultsPost, unwrapsData, hf, pyGet, lookupField]
  | verify => simp [opPost, unwrapsData, pyGet, lookupField]
  | verifyBatch => simp [opPost, unwrapsData, pyGet, lookupField]
  | verifyBatchFile => simp [opPost, unwrapsData, pyGet, lookupField]
  | getBatchStatus => simp [opPost, unwrapsData, pyGet, lookupField]
  | findEmail => simp [opPost, unwrapsData, pyGet, lookupField]
  | findByDomain => simp [opPost, unwrapsData, pyGet, lookupField]
  | findByCompany => simp [opPost, unwrapsData, pyGet, lookupField]
  | getCredits => simp [opPost, unwrapsData, pyGet, lookupField]
  | getUsage => simp [opPost, unwrapsData, pyGet, lookupField]
  | getLists => simp [opPost, unwrapsData, pyGet, lookupField]
  | deleteList => simp [opPost, unwrapsData]

/-- Witness for C2: `verify` on `\x7b"data": 1\x7d` yields `1`, and
`delete_list` on the same body yields the full envelope. -/
theorem c2_envelope_unwrapping_witness :
    opPost Op.verify (Json.obj [("data", Json.num 1)]) = .ok (Json.num 1) ∧
    opPost Op.deleteList (Json.obj [("data", Json.num 1)]) =
      .ok (Json.obj [("data", Json.num 1)]) := by
  constructor
  · have h := (c2_envelope_unwrapping Op.verify
      (Json.obj [("data", Json.num 1)]) rfl).1 rfl
    simpa [lookupField, lookupKvs] using h
  · exact (c2_envelope_unwrapping Op.deleteList
      (Json.obj [("data", Json.num 1)]) rfl).2 rfl

/-- Counterexample to C2 as stated: `get_batch_results` with `format='csv'`
is a public operation other than `delete_list`, yet it returns the whole
envelope even though a `data` field is present; moreover `verify` on a
non-object decoded body crashes with `AttributeError` instead of returning
the body. -/
theorem c2_counterexample :
    opPost (Op.getBatchResults "csv") (Json.obj [("data", Json.num 1)]) =
      .ok (Json.obj [("data", Json.num 1)]) ∧
    Json.obj [("data", Json.num 1)] ≠ Json.num 1 ∧
    Op.getBatchResults "csv" ≠ Op.deleteList ∧
    opPost Op.verify (Json.arr []) = .error "AttributeError" := by
  refine ⟨rfl, fun h => Json.noConfusion h, by decide, rfl⟩

/-- Claim C3 (amended): `verify_batch_file` applies the 401/402/422/other
classification of the shared routine, but it has no 429 branch — a 429
response falls into the catch-all and yields an `APIError`, not a
`RateLimitError` — and transport failures propagate as raw `requests`
exceptions rather than being re-raised as the Generic base error. -/
theorem c3_upload_classification (r : HttpResponse)
    (henv : envelopeBody r.body = true) :
    (r.status = 401 →
      ∃ e, classifyUpload r = .error (.exc e) ∧ e.cls = .authentication) ∧
    (r.status = 402 →
      ∃ e, classifyUpload r = .error (.exc e) ∧ e.cls = .insufficientCredits) ∧
    (r.status = 422 →
      ∃ e, classifyUpload r = .error (.exc e) ∧ e.cls = .validation) ∧
    (400 ≤ r.status → r.status ≠ 401 → r.status ≠ 402 → r.status ≠ 422 →
      classifyUpload r = .error (.exc ⟨.apiError,
        (lookupField (decodedBody r) "error").getD
          (.str ("API error: " ++ toString r.status)),
        some r.status, some (decodedBody r)⟩)) ∧
    (r.status < 400 →
      classifyUpload r =
        .ok ((lookupField (decodedBody r) "data").getD (decodedBody r))) ∧
    (∀ n, uploadTryBody (.raise n) = .error (.pyError n)) := by
  obtain ⟨kvs, hkvs⟩ := decodedBody_obj henv
  refine ⟨?_, ?_, ?_, ?_, ?_, fun n => rfl⟩
  · intro h
    simp only [classifyUpload, h] at *
    simp only [hkvs, pyGet]
    exact ⟨_, rfl, rfl⟩
  · intro h
    simp only [classifyUpload, h] at *
    simp only [hkvs, pyGet]
    exact ⟨_, rfl, rfl⟩
  · intro h
    simp only [classifyUpload, h] at *
    simp only [hkvs, pyGet]
    exact ⟨_, rfl, rfl⟩
  · intro h h1 h2 h3
    simp only [classifyUpload, h, h1, h2, h3] at *
    simp [hkvs, pyGet, lookupField]
  · intro h
    have h1 : r.status ≠ 401 := by omega
    have h2 : r.status ≠ 402 := by omega
    have h3 : r.status ≠ 422 := by omega
    have h4 : ¬ (400 ≤ r.status) := by omega
    simp [classifyUpload, h1, h2, h3, h4, hkvs, pyGet, lookupField]

/-- Witness for C3 (amended): a concrete 500 upload response yields an
`APIError` with the fallback message. -/
theorem c3_upload_classification_witness :
    classifyUpload ⟨500, [], none⟩ =
      .error (.exc ⟨.apiError, .str "API error: 500", some 500,
        some (Json.obj [])⟩) := by
  have h := (c3_upload_classification ⟨500, [], none⟩ rfl).2.2.2.1
    (by decide) (by decide) (by decide) (by decide)
  simpa [decodedBody, lookupField, lookupKvs] using h

/-- Counterexample to C3 as stated: a 429 upload response (even one carrying
a `Retry-After` header) is classified as an `APIError`, not a
`RateLimitError`, and a raised transport exception escapes as a raw Python
error instead of a typed Generic error. -/
theorem c3_counterexample :
    uploadTryBody (.success ⟨429, [("Retry-After", "120")], some (Json.obj [])⟩) =
      .error (.exc ⟨.apiError, .str "API error: 429", some 429,
        some (Json.obj [])⟩) ∧
    ExcClass.apiError ≠ ExcClass.rateLimit ∧
    uploadTryBody (.raise "ConnectionError") = .error (.pyError "ConnectionError") ∧
    (∀ e : ELCError, Raised.pyError "ConnectionError" ≠ Raised.exc e) := by
  refine ⟨rfl, by decide, rfl, fun e h => Raised.noConfusion h⟩

/-- Claim C4: a 429 response with header `Retry-After: 120` produces a
`RateLimitError` carrying retry-after 120 (embedded in its message, which is
the only place the code stores it); with no `Retry-After` header the carried
value defaults to 60. -/
theorem c4_retry_after_header (r : HttpResponse) :
    (r.status = 429 → headersGet r.headers "Retry-After" = some "120" →
      retryAfterOf r.headers = .ok 120 ∧
      classify r = .error (.exc ⟨.rateLimit,
        .str "Rate limit exceeded. Retry after 120 seconds",
        some 429, r.body⟩)) ∧
    (r.status = 429 → headersGet r.headers "Retry-After" = none →
      retryAfterOf r.headers = .ok 60 ∧
      classify r = .error (.exc ⟨.rateLimit,
        .str "Rate limit exceeded. Retry after 60 seconds",
        some 429, r.body⟩)) := by
  constructor
  · intro hs hh
    have hra : retryAfterOf r.headers = .ok 120 := by
      simp [retryAfterOf, hh]
      rfl
    refine ⟨hra, ?_⟩
    simp [classify, hs, hra]
    rfl
  · intro hs hh
    have hra : retryAfterOf r.headers = .ok 60 := by
      simp [retryAfterOf, hh]
    refine ⟨hra, ?_⟩
    simp [classify, hs, hra]
    rfl

/-- Witness for C4: concrete 429 responses with and without the header. -/
theorem c4_retry_after_header_witness :
    classify ⟨429, [("Retry-After", "120")], none⟩ =
      .error (.exc ⟨.rateLimit,
        .str "Rate limit exceeded. Retry after 120 seconds", some 429, none⟩) ∧
    classify ⟨429, [], none⟩ =
      .error (.exc ⟨.rateLimit,
        .str "Rate limit exceeded. Retry after 60 seconds", some 429, none⟩) := by
  exact ⟨((c4_retry_after_header ⟨429, [("Retry-After", "120")], none⟩).1
            rfl rfl).2,
         ((c4_retry_after_header ⟨429, [], none⟩).2 rfl rfl).2⟩

/-- Claim C5, evaluated at the failing input: with `format='json'` the
`data` field is unwrapped, but with `format='csv'` the method returns the
JSON-decoded body unchanged — a JSON object, never raw text — contradicting
the code's own `# CSV or TXT as string` comment and `Union[Dict, str]`
annotation. -/
theorem c5_results_format :
    getBatchResultsPost "json" (Json.obj [("data", Json.num 7)]) =
      .ok (Json.num 7) ∧
    getBatchResultsPost "csv" (Json.obj [("data", Json.str "email,result")]) =
      .ok (Json.obj [("data", Json.str "email,result")]) ∧
    (∀ s : String,
      getBatchResultsPost "csv" (Json.obj [("data", Json.str "email,result")]) ≠
        .ok (Json.str s)) := by
  refine ⟨rfl, rfl, ?_⟩
  intro s h
  simp [getBatchResultsPost] at h

/-- Claim C6: the target URL is `base_url` with trailing slashes stripped,
then `/`, then the endpoint with leading slashes stripped, so bases with and
without a trailing slash give identical URLs and the joint never has a
double or missing slash. -/
theorem c6_url_composition :
    (∀ endpoint : String,
      clientUrl "https://host/api" endpoint =
        clientUrl "https://host/api/" endpoint) ∧
    (∀ base_url endpoint : String,
      clientUrl base_url endpoint =
        rstripSlash base_url ++ "/" ++ lstripSlash endpoint ∧
      endsWithSlash (rstripSlash base_url) = false ∧
      startsWithSlash (lstripSlash endpoint) = false) := by
  constructor
  · intro endpoint
    show rstripSlash "https://host/api" ++ "/" ++ lstripSlash endpoint =
      rstripSlash "https://host/api/" ++ "/" ++ lstripSlash endpoint
    rw [show rstripSlash "https://host/api/" = rstripSlash "https://host/api" from rfl]
  · intro b e
    refine ⟨rfl, ?_, ?_⟩
    · unfold endsWithSlash rstripSlash
      rw [show (String.mk ((b.data.reverse.dropWhile (fun c => c == '/')).reverse)).data
          = (b.data.reverse.dropWhile (fun c => c == '/')).reverse from rfl]
      rw [List.reverse_reverse]
      cases hX : b.data.reverse.dropWhile (fun c => c == '/') with
      | nil => rfl
      | cons c t =>
        have h := dropWhile_head_not (fun c => c == '/') b.data.reverse
        rw [hX] at h
        simpa using h
    · unfold startsWithSlash lstripSlash
      rw [show (String.mk (e.data.dropWhile (fun c => c == '/'))).data
          = e.data.dropWhile (fun c => c == '/') from rfl]
      cases hX : e.data.dropWhile (fun c => c == '/') with
      | nil => rfl
      | cons c t =>
        have h := dropWhile_head_not (fun c => c == '/') e.data
        rw [hX] at h
        simpa using h

/-- Claim C7: a call whose transport raises a timeout fails with the base
(Generic) exception whose message states the configured timeout duration —
it is a typed error, not an unhandled transport exception, and the routine
performs no retry (it maps one transport outcome to one result). -/
theorem c7_timeout_generic (cfgTimeout : Nat) :
    request cfgTimeout .timeout =
      .error (.exc (mkExcDefault .base
        (.str ("Request timeout after " ++ toString cfgTimeout ++ " seconds")))) ∧
    (mkExcDefault .base
      (.str ("Request timeout after " ++ toString cfgTimeout ++ " seconds"))).cls =
        .base ∧
    (∃ pre post : String,
      "Request timeout after " ++ toString cfgTimeout ++ " seconds" =
        pre ++ toString cfgTimeout ++ post) := by
  exact ⟨rfl, rfl, "Request timeout after ", " seconds", rfl⟩

/-- Claim C8: when `verify_batch_file` is given a path it opens the file and
the `finally` clause closes that handle on every exit path (success, typed
error, or an exception during the network call), leaving the set of open
handles exactly as it was; a caller-supplied stream is never closed. -/
theorem c8_file_handle_scoped (file : FileArg) (t : UploadOutcome)
    (fs : List Nat) :
    freshHandle fs ∉ fs ∧
    (runVerifyBatchFile file t fs).2 = fs ∧
    (∀ h : Nat, h ∈ fs → h ∈ (runVerifyBatchFile (.stream h) t fs).2) := by
  refine ⟨freshHandle_not_mem fs, ?_, ?_⟩
  · cases file with
    | path p => simp [runVerifyBatchFile]
    | stream h => rfl
  · intro h hmem
    simpa [runVerifyBatchFile] using hmem

/-- Witness for C8: with one pre-open handle, a path upload whose network
call raises leaves the handle set unchanged, and a stream upload leaves the
stream open. -/
theorem c8_file_handle_scoped_witness :
    (runVerifyBatchFile (.path "emails.csv") (.raise "Timeout") [5]).2 = [5] ∧
    5 ∈ (runVerifyBatchFile (.stream 5) (.raise "Timeout") [5]).2 := by
  exact ⟨(c8_file_handle_scoped (.path "emails.csv") (.raise "Timeout") [5]).2.1,
         (c8_file_handle_scoped (.stream 5) (.raise "Timeout") [5]).2.2 5
           (by decide)⟩

/-- Claim C9: `verify` includes the `timeout` field only when the value is
truthy — `None` and `0` omit it, any non-zero integer includes it — and
`verify_batch` omits `name` and `callback_url` when they are `None` or the
empty string and includes a non-empty `name`. -/
theorem c9_truthy_optional_fields :
    (∀ (email : String) (smtp : Bool),
      hasKey (verifyPayload email none smtp) "timeout" = false) ∧
    (∀ (email : String) (smtp : Bool),
      hasKey (verifyPayload email (some 0) smtp) "timeout" = false) ∧
    (∀ (email : String) (smtp : Bool) (t : Int), t ≠ 0 →
      hasKey (verifyPayload email (some t) smtp) "timeout" = true) ∧
    (∀ (emails : List String) (auto : Bool) (cb : Option String),
      hasKey (verifyBatchPayload emails none cb auto) "name" = false ∧
      hasKey (verifyBatchPayload emails (some "") cb auto) "name" = false) ∧
    (∀ (emails : List String) (auto : Bool) (nm : Option String),
      hasKey (verifyBatchPayload emails nm none auto) "callback_url" = false ∧
      hasKey (verifyBatchPayload emails nm (some "") auto) "callback_url" = false) ∧
    (∀ (emails : List String) (auto : Bool) (cb : Option String) (s : String),
      s ≠ "" →
      hasKey (verifyBatchPayload emails (some s) cb auto) "name" = true) := by
  refine ⟨?_, ?_, ?_, ?_, ?_, ?_⟩
  · intro email smtp
    simp [verifyPayload, hasKey]
  · intro email smtp
    simp [verifyPayload, hasKey]
  · intro email smtp t ht
    simp [verifyPayload, hasKey, ht]
  · intro emails auto cb
    cases cb with
    | none => constructor <;> simp [verifyBatchPayload, hasKey]
    | some s =>
      by_cases hs : s = "" <;>
        constructor <;> simp [verifyBatchPayload, hasKey, hs]
  · intro emails auto nm
    cases nm with
    | none => constructor <;> simp [verifyBatchPayload, hasKey]
    | some s =>
      by_cases hs : s = "" <;>
        constructor <;> simp [verifyBatchPayload, hasKey, hs]
  · intro emails auto cb s hs
    cases cb with
    | none => simp [verifyBatchPayload, hasKey, hs]
    | some c =>
      by_cases hc : c = "" <;> simp [verifyBatchPayload, hasKey, hs, hc]

/-- Witness for C9: a non-zero timeout is included; a non-empty name is
included. -/
theorem c9_truthy_optional_fields_witness :
    hasKey (verifyPayload "a@b.co" (some 30) true) "timeout" = true ∧
    hasKey (verifyBatchPayload ["a@b.co"] (some "My List") none true)
      "name" = true := by
  exact ⟨c9_truthy_optional_fields.2.2.1 "a@b.co" true 30 (by decide),
         c9_truthy_optional_fields.2.2.2.2.2 ["a@b.co"] true none "My List"
           (by decide)⟩

/-- Claim C10: every typed error class subclasses the single base
`EmailListCheckerException`, instances built with the constructor defaults
carry `message` with `status_code = None` and `response = None`, and every
SDK exception the shared request routine raises is catchable by one
`except` clause on the base class. -/
theorem c10_single_base_taxonomy :
    (∀ c : ExcClass, c ≠ .base → superclass c = some .base) ∧
    (∀ c : ExcClass, catchableByBase c = true) ∧
    (∀ (c : ExcClass) (m : Json),
      (mkExcDefault c m).message = m ∧
      (mkExcDefault c m).status_code = none ∧
      (mkExcDefault c m).response = none) ∧
    (∀ (cfgTimeout : Nat) (t : TransportResult) (e : ELCError),
      request cfgTimeout t = .error (.exc e) → catchableByBase e.cls = true) := by
  have hall : ∀ c : ExcClass, catchableByBase c = true := by
    intro c
    cases c <;> rfl
  refine ⟨?_, hall, fun c m => ⟨rfl, rfl, rfl⟩, fun _ _ e _ => hall e.cls⟩
  intro c hc
  cases c with
  | base => exact absurd rfl hc
  | authentication => rfl
  | insufficientCredits => rfl
  | rateLimit => rfl
  | validation => rfl
  | apiError => rfl

/-- Witness for C10: the timeout error raised by a concrete call is caught
by an `except` clause on the base class. -/
theorem c10_single_base_taxonomy_witness :
    catchableByBase
      (mkExcDefault .base (.str "Request timeout after 30 seconds")).cls =
      true := by
  exact c10_single_base_taxonomy.2.2.2 30 .timeout
    (mkExcDefault .base (.str "Request timeout after 30 seconds")) rfl
